import Mathlib

/-!
Verification of the `tensorqtl` command-line driver
(`src/tensorqtl/tensorqtl.py`, function `main`).

The driver parses arguments, validates inputs (sample alignment,
phenotype-group contiguity, variant-position availability), loads
genotypes, and dispatches to one of five mapping modes
(`cis`, `cis_nominal`, `cis_independent`, `cis_susie`, `trans`).

We embed the driver's control flow as a pure function
`runMain : Args → Inputs → List Event × Except Err MainResult`.
The `List Event` component is the ordered trace of observable actions
(file reads, genotype loading, mapping calls, artifact writes), which
lets us state ordering properties such as "fails before any genotype
loading".  The mapping procedures themselves (`cis.map_cis`,
`trans.map_trans`, `trans.filter_cis`, `trans.map_permutations`) live
in modules that are not part of the sources under verification; where
a claim depends on their behaviour we model them from the spec and
mark the definition accordingly.
-/

/-- Chromosome/coordinate pair, as stored in the variant and phenotype
position tables (`variant_df` rows, `pos_dict` entries). -/
structure GenoPos where
  chrom : String
  pos : ℤ
deriving DecidableEq

/-- One variant-phenotype association record of the trans scan
(`pairs_df` row: variant id, phenotype id, p-value). -/
structure TransPair where
  variant_id : String
  phenotype_id : String
  pval : ℚ
deriving DecidableEq

/-- Command-line arguments of `main` (tensorqtl.py lines 18-48).
Path-valued optional arguments are modelled by whether they were
supplied; `maf_threshold` and `pval_threshold` keep their
none-or-number structure because the code branches on `is None`.
The positional `prefix` argument is named `out_prefix` here because
`prefix` is reserved in Lean. -/
structure Args where
  mode : String
  covariates : Bool
  paired_covariate : Bool
  permutations : ℤ
  interaction : Bool
  cis_output : Bool
  phenotype_groups : Bool
  window : ℤ
  pval_threshold : Option ℚ
  maf_threshold : Option ℚ
  return_dense : Bool
  output_text : Bool
  invnorm : Bool
  load_split : Bool
  best_only : Bool
  seed : Option ℤ
  batch_size : ℤ
  out_prefix : String
deriving DecidableEq

/-- The argparse defaults (tensorqtl.py lines 22-47): every optional
argument's `default=` value.  In particular `--maf_threshold` defaults
to `0` (line 32), not to `None`, and `--pval_threshold` defaults to
`None` (line 31).  `mode` defaults to `"cis"`; the positional
`out_prefix` has no default and is set to a placeholder. -/
def defaultArgs : Args where
  mode := "cis"
  covariates := false
  paired_covariate := false
  permutations := 10000
  interaction := false
  cis_output := false
  phenotype_groups := false
  window := 1000000
  pval_threshold := none
  maf_threshold := some 0
  return_dense := false
  output_text := false
  invnorm := false
  load_split := false
  best_only := false
  seed := none
  batch_size := 20000
  out_prefix := "out"

/-- Contents of the input files and of the genotype loader's answer,
i.e. everything `main` observes from the outside world.
`densePairs` abstracts the dense all-pairs association table that the
(external) trans scan computes from the genotype and phenotype
matrices. -/
structure Inputs where
  cisOutputExists : Bool
  phenotypeSamples : List String
  phenotypeIndex : List String
  posColumnName : String
  phenotypePos : String → GenoPos
  covariateSamples : List String
  pairedCovIndex : List String
  pairedCovSamples : List String
  interactionIndex : List String
  interactionNcols : ℕ
  groupRows : List (String × String)
  variantPos : Option (String → GenoPos)
  densePairs : List TransPair

/-- Errors the driver can raise. -/
inductive Err where
  | valueError (msg : String)
  | notImplementedError (msg : String)
  | assertionError (msg : String)
  | attributeError (msg : String)
  | keyError (key : String)
deriving DecidableEq

/-- Observable actions of one driver run, in program order. -/
inductive Event where
  | readPhenotypes
  | readCovariates
  | readPairedCovariate
  | readInteraction
  | readPhenotypeGroups
  | loadGenotypes
  | mapCis (seed : Option ℤ)
  | mapNominal
  | readCisOutput
  | mapIndependent (seed : Option ℤ)
  | mapSusie
  | mapTrans (returnSparse : Bool) (pvalThreshold : Option ℚ)
  | filterCis (window : ℤ)
  | mapPermutations (nperms : ℤ) (seed : Option ℤ)
  | writeArtifact (name : String)
deriving DecidableEq

/-- Result value of a completed run, by mode. -/
inductive MainResult where
  | cisDone
  | nominalDone
  | independentDone
  | susieDone
  | transDone (pairs : List TransPair)
deriving DecidableEq

/-- Mapping calls, as opposed to reads and writes. -/
def isMappingEvent : Event → Bool
  | .mapCis _ => true
  | .mapNominal => true
  | .mapIndependent _ => true
  | .mapSusie => true
  | .mapTrans _ _ => true
  | .mapPermutations _ _ => true
  | _ => false

/-- Effective MAF threshold selection (tensorqtl.py lines 107-113):
a missing (`None`) value becomes `0.05` in trans mode and `0`
otherwise; a present value is used unchanged. -/
def select_maf_threshold (mafArg : Option ℚ) (mode : String) : ℚ :=
  match mafArg with
  | none => if mode = "trans" then 1/20 else 0
  | some t => t

/-- The `group_s.to_dict()` lookup (line 118): pandas keeps the last
row for a duplicated phenotype id; a missing id is a `KeyError`. -/
def groupLookup (rows : List (String × String)) (p : String) : Option String :=
  (rows.reverse.find? (fun r => r.1 == p)).map (fun r => r.2)

/-- Number of distinct group ids in the group file,
`len(group_s.unique())` (line 125). -/
def distinctGroupCount (rows : List (String × String)) : ℕ :=
  ((rows.map Prod.snd).dedup).length

/-- The sort-order walk of lines 119-124: count how often the group id
changes while traversing the phenotype index, starting from the
sentinel `previous_group = ''`; a phenotype missing from the mapping
raises `KeyError`. -/
def parsedGroupsAux (gd : String → Option String) :
    List String → String → ℕ → Except Err ℕ
  | [], _, acc => .ok acc
  | i :: rest, prev, acc =>
    match gd i with
    | none => .error (.keyError i)
    | some g =>
      if g ≠ prev then parsedGroupsAux gd rest g (acc + 1)
      else parsedGroupsAux gd rest prev acc

/-- Total transition count of the group walk (lines 119-124). -/
def parsedGroups (gd : String → Option String) (index : List String) :
    Except Err ℕ :=
  parsedGroupsAux gd index "" 0

/-- Modelled from the spec: `trans.map_trans` (module `trans` is not
among the sources under verification).  Per the spec, output is
"either dense (all pairs) or sparse (pairs below a p-value threshold
only)"; the dense all-pairs table is abstracted as the `dense`
argument. -/
def map_trans (dense : List TransPair) (return_sparse : Bool)
    (pval_threshold : Option ℚ) : List TransPair :=
  if return_sparse then
    dense.filter (fun p =>
      match pval_threshold with
      | some t => decide (p.pval < t)
      | none => true)
  else dense

/-- Modelled from the spec: `trans.filter_cis` (module `trans` is not
among the sources under verification).  Per the spec, cis-exclusion
"removes all pairs with |position difference| ≤ window and chromosome
match, and no others". -/
def filter_cis (pairs : List TransPair) (posDict : String → GenoPos)
    (variantPos : String → GenoPos) (window : ℤ) : List TransPair :=
  pairs.filter (fun p =>
    let vp := variantPos p.variant_id
    let pp := posDict p.phenotype_id
    !(decide (vp.chrom = pp.chrom ∧ |vp.pos - pp.pos| ≤ window)))

/-- Input checks before anything is read (tensorqtl.py lines 51-56):
`cis_independent` requires an existing `--cis_output`; interactions
are only allowed in `cis_nominal` or `trans` mode; `--invnorm` is not
implemented together with `--interaction`. -/
def checkArgs (args : Args) (inp : Inputs) : Option Err :=
  if args.mode = "cis_independent" ∧
      (args.cis_output = false ∨ inp.cisOutputExists = false) then
    some (.valueError "Output from cis mode must be provided.")
  else if args.interaction = true ∧
      ¬(args.mode = "cis_nominal" ∨ args.mode = "trans") then
    some (.valueError
      "Interactions are only supported in cis_nominal or trans mode.")
  else if args.interaction = true ∧ args.invnorm = true then
    some (.notImplementedError
      "invnorm is not supported when using interaction")
  else none

/-- Sequence two traced steps: the second runs only if the first
succeeded, and traces concatenate. -/
def seqRun {α : Type} (x : List Event × Except Err Unit)
    (y : List Event × Except Err α) : List Event × Except Err α :=
  match x with
  | (evs, .ok _) => (evs ++ y.1, y.2)
  | (evs, .error e) => (evs, .error e)

/-- Read the phenotype BED file and check that its second position
column is named `pos` (lines 69-73). -/
def phenotypesStep (inp : Inputs) : List Event × Except Err Unit :=
  ([.readPhenotypes],
   if inp.posColumnName = "pos" then .ok ()
   else .error (.assertionError
     "The BED file must define the TSS/cis-window center, with start+1 == end."))

/-- Read covariates if supplied and assert that their sample index
equals the phenotype sample columns (lines 76-81; the bare `assert`
carries no message). -/
def covariatesStep (args : Args) (inp : Inputs) :
    List Event × Except Err Unit :=
  if args.covariates = true then
    ([.readCovariates],
     if inp.phenotypeSamples = inp.covariateSamples then .ok ()
     else .error (.assertionError ""))
  else ([], .ok ())

/-- Paired-covariate handling (lines 83-89): requires covariates,
then reads the file and asserts phenotype membership and sample
alignment. -/
def pairedCovariateStep (args : Args) (inp : Inputs) :
    List Event × Except Err Unit :=
  if args.paired_covariate = true then
    if args.covariates = false then
      ([], .error (.assertionError
        "Covariates matrix must be provided when using paired covariate"))
    else
      ([.readPairedCovariate],
       if ¬(inp.pairedCovIndex.all (fun p => inp.phenotypeIndex.contains p)) then
         .error (.assertionError
           "Paired covariate phenotypes must be present in phenotype matrix.")
       else if inp.pairedCovSamples ≠ inp.phenotypeSamples then
         .error (.assertionError
           "Paired covariate samples must match samples in phenotype matrix.")
       else .ok ())
  else ([], .ok ())

/-- Interaction handling (lines 91-105): read the interaction file,
then evaluate `covariates_df.index.isin(interaction_df.index).all()`;
with no covariates this dereferences `None` (AttributeError). -/
def interactionStep (args : Args) (inp : Inputs) :
    List Event × Except Err Unit :=
  if args.interaction = true then
    ([.readInteraction],
     if args.covariates = false then
       .error (.attributeError "NoneType object has no attribute index")
     else if ¬(inp.covariateSamples.all (fun s => inp.interactionIndex.contains s)) then
       .error (.assertionError "")
     else .ok ())
  else ([], .ok ())

/-- Phenotype-group handling (lines 115-128): read the group file and
raise `ValueError` unless the transition count of the group walk
equals the number of distinct groups. -/
def groupsStep (args : Args) (inp : Inputs) :
    List Event × Except Err Unit :=
  if args.phenotype_groups = true then
    ([.readPhenotypeGroups],
     match parsedGroups (groupLookup inp.groupRows) inp.phenotypeIndex with
     | .error e => .error e
     | .ok n =>
       if n = distinctGroupCount inp.groupRows then .ok ()
       else .error (.valueError
         "Groups defined in input do not match phenotype file (check sort order)."))
  else ([], .ok ())

/-- Python `str.startswith`, as a character-list prefix test. -/
def strStartsWith (s pre : String) : Bool :=
  pre.data.isPrefixOf s.data

/-- Genotype loading (lines 131-135): unless the run is a
`--load_split` `cis_nominal` one, all genotypes are loaded; when the
loader returns no variant position table, any mode whose name starts
with `cis` fails by assertion. -/
def loadGenotypesStep (args : Args) (inp : Inputs) :
    List Event × Except Err Unit :=
  if args.load_split = false ∨ args.mode ≠ "cis_nominal" then
    ([.loadGenotypes],
     match inp.variantPos with
     | none =>
       if strStartsWith args.mode "cis" then
         .error (.assertionError
           "Genotype data without variant positions is only supported for mode trans.")
       else .ok ()
     | some _ => .ok ())
  else ([], .ok ())

/-- The default p-value threshold choice of the trans branch
(lines 207-210): a missing threshold becomes `1e-5` when the output
is sparse (i.e. `--return_dense` was not given). -/
def resolve_pval_threshold (args : Args) : Option ℚ :=
  if args.pval_threshold = none ∧ args.return_dense = false then
    some (1/100000)
  else args.pval_threshold

/-- The trans scan result (line 219): `trans.map_trans` applied with
the resolved sparsity and threshold. -/
def transScanPairs (args : Args) (inp : Inputs) : List TransPair :=
  map_trans inp.densePairs (!args.return_dense) (resolve_pval_threshold args)

/-- The final trans pair table (lines 224-226): when variant positions
are available, cis-proximal pairs are filtered out with the literal
window 5000000 of line 226; otherwise the scan result is kept as is. -/
def transFilteredPairs (args : Args) (inp : Inputs) : List TransPair :=
  match inp.variantPos with
  | some vp => filter_cis (transScanPairs args inp) inp.phenotypePos vp 5000000
  | none => transScanPairs args inp

/-- Events of a successful trans branch, in program order: the scan,
the conditional cis-filter, the conditional permutation run with its
two persisted artifacts (lines 228-237), and the pair output write. -/
def transEvents (args : Args) (inp : Inputs) : List Event :=
  Event.mapTrans (!args.return_dense) (resolve_pval_threshold args) ::
    ((match inp.variantPos with
      | some _ => [Event.filterCis 5000000]
      | none => []) ++
     (if 0 < args.permutations then
        [Event.mapPermutations args.permutations args.seed,
         Event.writeArtifact (args.out_prefix ++ ".permutations.txt.gz"),
         Event.writeArtifact (args.out_prefix ++ ".permutations.pickle")]
      else []) ++
     [Event.writeArtifact
       (if args.output_text then args.out_prefix ++ ".trans_qtl_pairs.txt.gz"
        else args.out_prefix ++ ".trans_qtl_pairs.parquet")])

/-- The trans branch (lines 206-244): resolve sparsity and threshold,
reject multi-column interactions (lines 213-217), then scan, filter,
permute, and write. -/
def transBranch (args : Args) (inp : Inputs) :
    List Event × Except Err MainResult :=
  if args.interaction = true ∧ 1 < inp.interactionNcols then
    ([], .error (.notImplementedError
      "trans-QTL mapping currently only supports a single interaction."))
  else
    (transEvents args inp, .ok (.transDone (transFilteredPairs args inp)))

/-- Mode dispatch (lines 137-244).  The cis branches call the
external mapping procedures and write their outputs; the
`--load_split` `cis_nominal` branch, which loads and maps each
chromosome separately through `PlinkReader`, is abstracted to its
loading and mapping events. -/
def dispatch (args : Args) (inp : Inputs) :
    List Event × Except Err MainResult :=
  if args.mode = "cis" then
    ([.mapCis args.seed,
      .writeArtifact (args.out_prefix ++ ".cis_qtl.txt.gz")],
     .ok .cisDone)
  else if args.mode = "cis_nominal" then
    if args.load_split = false then
      (Event.mapNominal ::
        (if args.cis_output = true then
          [Event.readCisOutput,
           Event.writeArtifact (args.out_prefix ++ ".cis_qtl.signif_pairs.parquet")]
         else []),
       .ok .nominalDone)
    else
      ([.loadGenotypes, .mapNominal], .ok .nominalDone)
  else if args.mode = "cis_independent" then
    ([.readCisOutput, .mapIndependent args.seed,
      .writeArtifact (args.out_prefix ++ ".cis_independent_qtl.txt.gz")],
     .ok .independentDone)
  else if args.mode = "cis_susie" then
    ([.readCisOutput, .mapSusie,
      .writeArtifact (args.out_prefix ++ ".SuSiE_summary.parquet"),
      .writeArtifact (args.out_prefix ++ ".SuSiE.pickle")],
     .ok .susieDone)
  else if args.mode = "trans" then
    transBranch args inp
  else
    ([], .error (.valueError "invalid mode"))

/-- The whole driver `main`, after argument parsing: the early checks,
the input-reading pipeline in source order, genotype loading, and mode
dispatch. -/
def runMain (args : Args) (inp : Inputs) :
    List Event × Except Err MainResult :=
  match checkArgs args inp with
  | some e => ([], .error e)
  | none =>
    seqRun (phenotypesStep inp)
      (seqRun (covariatesStep args inp)
        (seqRun (pairedCovariateStep args inp)
          (seqRun (interactionStep args inp)
            (seqRun (groupsStep args inp)
              (seqRun (loadGenotypesStep args inp)
                (dispatch args inp))))))

/-! Helper lemmas about the pipeline steps. -/

lemma seqRun_ok {α : Type} (evs : List Event)
    (y : List Event × Except Err α) :
    seqRun (evs, .ok ()) y = (evs ++ y.1, y.2) := rfl

lemma seqRun_err {α : Type} (evs : List Event) (e : Err)
    (y : List Event × Except Err α) :
    seqRun (evs, .error e) y = (evs, .error e) := rfl

lemma runMain_of_checkArgs_none (args : Args) (inp : Inputs)
    (hck : checkArgs args inp = none) :
    runMain args inp =
      seqRun (phenotypesStep inp)
        (seqRun (covariatesStep args inp)
          (seqRun (pairedCovariateStep args inp)
            (seqRun (interactionStep args inp)
              (seqRun (groupsStep args inp)
                (seqRun (loadGenotypesStep args inp)
                  (dispatch args inp)))))) := by
  simp [runMain, hck]

lemma checkArgs_none_of_mode (args : Args) (inp : Inputs)
    (hmode : args.mode ≠ "cis_independent") (hint : args.interaction = false) :
    checkArgs args inp = none := by
  simp [checkArgs, hmode, hint]

lemma phenotypesStep_ok (inp : Inputs) (hpos : inp.posColumnName = "pos") :
    phenotypesStep inp = ([.readPhenotypes], .ok ()) := by
  simp [phenotypesStep, hpos]

lemma covariatesStep_off (args : Args) (inp : Inputs)
    (h : args.covariates = false) :
    covariatesStep args inp = ([], .ok ()) := by
  simp [covariatesStep, h]

lemma covariatesStep_ok (args : Args) (inp : Inputs)
    (h : args.covariates = true)
    (he : inp.phenotypeSamples = inp.covariateSamples) :
    covariatesStep args inp = ([.readCovariates], .ok ()) := by
  simp [covariatesStep, h, he]

lemma pairedCovariateStep_off (args : Args) (inp : Inputs)
    (h : args.paired_covariate = false) :
    pairedCovariateStep args inp = ([], .ok ()) := by
  simp [pairedCovariateStep, h]

lemma interactionStep_off (args : Args) (inp : Inputs)
    (h : args.interaction = false) :
    interactionStep args inp = ([], .ok ()) := by
  simp [interactionStep, h]

lemma interactionStep_ok (args : Args) (inp : Inputs)
    (h : args.interaction = true) (hc : args.covariates = true)
    (hi : ∀ s ∈ inp.covariateSamples, s ∈ inp.interactionIndex) :
    interactionStep args inp = ([.readInteraction], .ok ()) := by
  simp [interactionStep, h, hc]
  exact hi

lemma groupsStep_off (args : Args) (inp : Inputs)
    (h : args.phenotype_groups = false) :
    groupsStep args inp = ([], .ok ()) := by
  simp [groupsStep, h]

lemma loadGenotypesStep_ok_some (args : Args) (inp : Inputs)
    (hload : args.load_split = false ∨ args.mode ≠ "cis_nominal")
    (vp : String → GenoPos) (hvp : inp.variantPos = some vp) :
    loadGenotypesStep args inp = ([.loadGenotypes], .ok ()) := by
  simp [loadGenotypesStep, hload, hvp]

lemma loadGenotypesStep_ok_trans (args : Args) (inp : Inputs)
    (hmode : args.mode = "trans") :
    loadGenotypesStep args inp = ([.loadGenotypes], .ok ()) := by
  have hload : args.load_split = false ∨ args.mode ≠ "cis_nominal" := by
    right; simp [hmode]
  cases hvp : inp.variantPos with
  | none =>
    simp [loadGenotypesStep, hload, hvp, hmode]
    decide
  | some vp => simp [loadGenotypesStep, hload, hvp]

lemma loadGenotypesStep_err_none (args : Args) (inp : Inputs)
    (hload : args.load_split = false ∨ args.mode ≠ "cis_nominal")
    (hvp : inp.variantPos = none)
    (hcis : strStartsWith args.mode "cis" = true) :
    loadGenotypesStep args inp =
      ([.loadGenotypes],
       .error (.assertionError
         "Genotype data without variant positions is only supported for mode trans.")) := by
  simp [loadGenotypesStep, hload, hvp, hcis]

/-- Reduction of `runMain` when only the phenotype BED is read
(no covariates, paired covariate, interaction, or groups) and
the early checks pass. -/
lemma runMain_plain (args : Args) (inp : Inputs)
    (hck : checkArgs args inp = none)
    (hpos : inp.posColumnName = "pos")
    (hcov : args.covariates = false)
    (hpair : args.paired_covariate = false)
    (hint : args.interaction = false)
    (hgrp : args.phenotype_groups = false) :
    runMain args inp =
      (Event.readPhenotypes ::
         (seqRun (loadGenotypesStep args inp) (dispatch args inp)).1,
       (seqRun (loadGenotypesStep args inp) (dispatch args inp)).2) := by
  rw [runMain_of_checkArgs_none args inp hck,
      phenotypesStep_ok inp hpos,
      covariatesStep_off args inp hcov,
      pairedCovariateStep_off args inp hpair,
      interactionStep_off args inp hint,
      groupsStep_off args inp hgrp]
  cases hl : seqRun (loadGenotypesStep args inp) (dispatch args inp) with
  | mk evs r => simp [seqRun]

lemma checkArgs_none_of_trans (args : Args) (inp : Inputs)
    (hmode : args.mode = "trans") (hinv : args.invnorm = false) :
    checkArgs args inp = none := by
  simp [checkArgs, hmode, hinv]

lemma dispatch_trans (args : Args) (inp : Inputs)
    (hmode : args.mode = "trans") :
    dispatch args inp = transBranch args inp := by
  simp [dispatch, hmode]

lemma dispatch_cis (args : Args) (inp : Inputs)
    (hmode : args.mode = "cis") :
    dispatch args inp =
      ([.mapCis args.seed,
        .writeArtifact (args.out_prefix ++ ".cis_qtl.txt.gz")],
       .ok .cisDone) := by
  simp [dispatch, hmode]

lemma transBranch_ok (args : Args) (inp : Inputs)
    (h : ¬(args.interaction = true ∧ 1 < inp.interactionNcols)) :
    transBranch args inp =
      (transEvents args inp, .ok (.transDone (transFilteredPairs args inp))) := by
  simp [transBranch, h]

lemma transBranch_err_multi (args : Args) (inp : Inputs)
    (hint : args.interaction = true) (hn : 1 < inp.interactionNcols) :
    transBranch args inp =
      ([], .error (.notImplementedError
        "trans-QTL mapping currently only supports a single interaction.")) := by
  simp [transBranch, hint, hn]

/-- Full reduction of a plain trans-mode run. -/
lemma runMain_trans (args : Args) (inp : Inputs)
    (hpos : inp.posColumnName = "pos")
    (hcov : args.covariates = false)
    (hpair : args.paired_covariate = false)
    (hint : args.interaction = false)
    (hgrp : args.phenotype_groups = false)
    (hmode : args.mode = "trans") :
    runMain args inp =
      (Event.readPhenotypes :: Event.loadGenotypes :: transEvents args inp,
       .ok (.transDone (transFilteredPairs args inp))) := by
  have hck : checkArgs args inp = none :=
    checkArgs_none_of_mode args inp (by rw [hmode]; decide) hint
  rw [runMain_plain args inp hck hpos hcov hpair hint hgrp,
      loadGenotypesStep_ok_trans args inp hmode,
      dispatch_trans args inp hmode,
      transBranch_ok args inp (by simp [hint])]
  rfl

lemma mem_map_trans_sparse (dense : List TransPair) (t : ℚ) (p : TransPair)
    (hp : p ∈ map_trans dense true (some t)) : p.pval < t := by
  simp [map_trans] at hp
  exact hp.2

lemma mem_filter_cis_sub (pairs : List TransPair) (pd vp : String → GenoPos)
    (w : ℤ) (p : TransPair) (hp : p ∈ filter_cis pairs pd vp w) :
    p ∈ pairs := by
  simp [filter_cis] at hp
  exact hp.1

lemma mem_filter_cis_not_proximal (pairs : List TransPair)
    (pd vp : String → GenoPos) (w : ℤ) (p : TransPair)
    (hp : p ∈ filter_cis pairs pd vp w) :
    ¬((vp p.variant_id).chrom = (pd p.phenotype_id).chrom ∧
      |(vp p.variant_id).pos - (pd p.phenotype_id).pos| ≤ w) := by
  simp [filter_cis] at hp
  rcases hp.2 with h | h
  · exact fun hc => h hc.1
  · exact fun hc => absurd hc.2 (not_le.mpr h)

/-! C1.  The claim states that with no MAF-threshold override the
effective threshold is 0.05 in trans mode and 0 in cis modes.  In the
source, `--maf_threshold` has argparse default `0` (line 32), not
`None`, so the `is None` branch of lines 107-113 that would produce
the 0.05/0 asymmetry is unreachable from the command line: with no
override the effective threshold is 0 in every mode. -/

/-- C1 counterexample: with the command-line defaults (no
`--maf_threshold` override supplied), the effective MAF threshold in
trans mode is 0, not 0.05 as the claim states. -/
theorem C1_counterexample :
    defaultArgs.maf_threshold = some 0 ∧
    select_maf_threshold defaultArgs.maf_threshold "trans" = 0 ∧
    ¬ select_maf_threshold defaultArgs.maf_threshold "trans" = 1/20 := by
  refine ⟨rfl, rfl, ?_⟩
  simp [select_maf_threshold, defaultArgs]

/-! Concrete fixtures used by witness theorems. -/

/-- A fixed chromosome/coordinate used by the concrete fixtures. -/
def posA : GenoPos := ⟨"chr1", 100⟩

/-- Constant position table used by the concrete fixtures. -/
def posFn : String → GenoPos := fun _ => posA

/-- Well-formed concrete inputs: two samples, two phenotypes, matching
covariates, contiguous groups, variant positions present, and a small
dense pair table with one pair below 1e-5. -/
def baseInputs : Inputs where
  cisOutputExists := true
  phenotypeSamples := ["s1", "s2"]
  phenotypeIndex := ["p1", "p2"]
  posColumnName := "pos"
  phenotypePos := posFn
  covariateSamples := ["s1", "s2"]
  pairedCovIndex := []
  pairedCovSamples := ["s1", "s2"]
  interactionIndex := ["s1", "s2"]
  interactionNcols := 1
  groupRows := [("p1", "g1"), ("p2", "g2")]
  variantPos := some posFn
  densePairs := [⟨"v1", "p1", 1/200000⟩, ⟨"v2", "p2", 1/2⟩]

/-- C1 amended: the threshold-selection logic maps a missing (`None`)
value to 0.05 in trans mode and to 0 in every cis mode, but the
command-line default for `--maf_threshold` is 0, not `None`, so when
no override is supplied the effective threshold is 0 in every mode;
the mode asymmetry exists only in the dead `None` branch. -/
theorem C1_amended :
    select_maf_threshold none "trans" = 1/20 ∧
    select_maf_threshold none "cis" = 0 ∧
    select_maf_threshold none "cis_nominal" = 0 ∧
    select_maf_threshold none "cis_independent" = 0 ∧
    select_maf_threshold none "cis_susie" = 0 ∧
    defaultArgs.maf_threshold = some 0 ∧
    select_maf_threshold defaultArgs.maf_threshold "trans" = 0 ∧
    select_maf_threshold defaultArgs.maf_threshold "cis" = 0 := by
  refine ⟨?_, rfl, rfl, rfl, rfl, rfl, rfl, rfl⟩
  simp [select_maf_threshold]

/-! C5: sample-order mismatch between covariates and phenotypes. -/

/-- C5: for every invocation supplying a covariate matrix whose sample
index differs from the phenotype sample columns, the run fails with an
assertion error before genotypes are loaded and before any mapping
computation. -/
theorem C5_covariate_mismatch_fatal (args : Args) (inp : Inputs)
    (hck : checkArgs args inp = none)
    (hpos : inp.posColumnName = "pos")
    (hcov : args.covariates = true)
    (hne : inp.phenotypeSamples ≠ inp.covariateSamples) :
    (runMain args inp).2 = .error (.assertionError "") ∧
    Event.loadGenotypes ∉ (runMain args inp).1 ∧
    ∀ e ∈ (runMain args inp).1, isMappingEvent e = false := by
  have hc : covariatesStep args inp =
      ([.readCovariates], .error (.assertionError "")) := by
    simp [covariatesStep, hcov, hne]
  have h1 : runMain args inp =
      ([Event.readPhenotypes, Event.readCovariates],
       .error (.assertionError "")) := by
    rw [runMain_of_checkArgs_none args inp hck,
        phenotypesStep_ok inp hpos, hc]
    rfl
  rw [h1]
  exact ⟨rfl, by decide, by decide⟩

/-- Arguments of the C5 witness run: defaults plus `--covariates`. -/
def c5Args : Args := { defaultArgs with covariates := true }

/-- Inputs of the C5 witness run: the covariate samples come in the
opposite order of the phenotype samples. -/
def c5Inputs : Inputs := { baseInputs with covariateSamples := ["s2", "s1"] }

/-- C5 witness: a concrete mismatched invocation fails as stated. -/
theorem C5_witness :
    c5Inputs.phenotypeSamples ≠ c5Inputs.covariateSamples ∧
    ((runMain c5Args c5Inputs).2 = .error (.assertionError "") ∧
     Event.loadGenotypes ∉ (runMain c5Args c5Inputs).1 ∧
     ∀ e ∈ (runMain c5Args c5Inputs).1, isMappingEvent e = false) :=
  ⟨by decide,
   C5_covariate_mismatch_fatal c5Args c5Inputs (by decide) rfl rfl (by decide)⟩

/-! C4: discontiguous phenotype groups. -/

/-- C4: for every supplied phenotype-group mapping whose walk along the
phenotype index has a transition count different from the number of
distinct groups, the run raises `ValueError` before genotypes are
loaded and before any mapping computation. -/
theorem C4_discontiguous_groups_fatal (args : Args) (inp : Inputs)
    (hck : checkArgs args inp = none)
    (hpos : inp.posColumnName = "pos")
    (hcov : args.covariates = false)
    (hpair : args.paired_covariate = false)
    (hint : args.interaction = false)
    (hgrp : args.phenotype_groups = true)
    (n : ℕ)
    (hparsed : parsedGroups (groupLookup inp.groupRows) inp.phenotypeIndex = .ok n)
    (hne : n ≠ distinctGroupCount inp.groupRows) :
    (runMain args inp).2 = .error (.valueError
      "Groups defined in input do not match phenotype file (check sort order).") ∧
    Event.loadGenotypes ∉ (runMain args inp).1 ∧
    ∀ e ∈ (runMain args inp).1, isMappingEvent e = false := by
  have hg : groupsStep args inp =
      ([.readPhenotypeGroups], .error (.valueError
        "Groups defined in input do not match phenotype file (check sort order).")) := by
    simp [groupsStep, hgrp, hparsed, hne]
  have h1 : runMain args inp =
      ([Event.readPhenotypes, Event.readPhenotypeGroups],
       .error (.valueError
         "Groups defined in input do not match phenotype file (check sort order).")) := by
    rw [runMain_of_checkArgs_none args inp hck,
        phenotypesStep_ok inp hpos,
        covariatesStep_off args inp hcov,
        pairedCovariateStep_off args inp hpair,
        interactionStep_off args inp hint, hg]
    rfl
  rw [h1]
  exact ⟨rfl, by decide, by decide⟩

/-- Arguments of the C4 witness run: defaults plus `--phenotype_groups`. -/
def c4Args : Args := { defaultArgs with phenotype_groups := true }

/-- Inputs of the C4 witness run: three phenotypes whose group ids go
g1, g2, g1, so the walk counts 3 transitions against 2 distinct
groups. -/
def c4Inputs : Inputs :=
  { baseInputs with
      phenotypeIndex := ["p1", "p2", "p3"]
      groupRows := [("p1", "g1"), ("p2", "g2"), ("p3", "g1")] }

/-- C4 witness: a concrete discontiguous grouping fails as stated. -/
theorem C4_witness :
    parsedGroups (groupLookup c4Inputs.groupRows) c4Inputs.phenotypeIndex = .ok 3 ∧
    distinctGroupCount c4Inputs.groupRows = 2 ∧
    ((runMain c4Args c4Inputs).2 = .error (.valueError
       "Groups defined in input do not match phenotype file (check sort order).") ∧
     Event.loadGenotypes ∉ (runMain c4Args c4Inputs).1 ∧
     ∀ e ∈ (runMain c4Args c4Inputs).1, isMappingEvent e = false) :=
  ⟨rfl, rfl,
   C4_discontiguous_groups_fatal c4Args c4Inputs (by decide) rfl rfl rfl rfl rfl
     3 rfl (by decide)⟩

/-! C6: a missing variant position table is only valid in trans mode. -/

/-- C6: when the genotype loader returns no variant position table,
any mode whose name starts with `cis` fails by assertion right after
loading and before any mapping computation, while trans mode proceeds
to a successful run. -/
theorem C6_variant_positions_required_for_cis :
    (∀ (args : Args) (inp : Inputs),
      checkArgs args inp = none →
      inp.posColumnName = "pos" →
      args.covariates = false → args.paired_covariate = false →
      args.interaction = false → args.phenotype_groups = false →
      args.load_split = false →
      inp.variantPos = none →
      strStartsWith args.mode "cis" = true →
      (runMain args inp).2 = .error (.assertionError
        "Genotype data without variant positions is only supported for mode trans.") ∧
      Event.loadGenotypes ∈ (runMain args inp).1 ∧
      ∀ e ∈ (runMain args inp).1, isMappingEvent e = false) ∧
    (∀ (args : Args) (inp : Inputs),
      inp.posColumnName = "pos" →
      args.covariates = false → args.paired_covariate = false →
      args.interaction = false → args.phenotype_groups = false →
      args.mode = "trans" →
      inp.variantPos = none →
      (runMain args inp).2 =
        .ok (.transDone (transFilteredPairs args inp))) := by
  constructor
  · intro args inp hck hpos hcov hpair hint hgrp hsplit hvp hcis
    have h1 : runMain args inp =
        ([Event.readPhenotypes, Event.loadGenotypes],
         .error (.assertionError
           "Genotype data without variant positions is only supported for mode trans.")) := by
      rw [runMain_plain args inp hck hpos hcov hpair hint hgrp,
          loadGenotypesStep_err_none args inp (Or.inl hsplit) hvp hcis]
      rfl
    rw [h1]
    exact ⟨rfl, by decide, by decide⟩
  · intro args inp hpos hcov hpair hint hgrp hmode hvp
    rw [runMain_trans args inp hpos hcov hpair hint hgrp hmode]

/-- Arguments of the C6 witness run: defaults, i.e. mode `cis`. -/
def c6Args : Args := defaultArgs

/-- Arguments of the trans half of the C6 witness run. -/
def c6TransArgs : Args := { defaultArgs with mode := "trans" }

/-- Inputs of the C6 witness run: the loader returns no variant
position table. -/
def c6Inputs : Inputs := { baseInputs with variantPos := none }

/-- C6 witness: with no variant position table, the default `cis` mode
fails by assertion after loading genotypes, while `trans` mode
completes. -/
theorem C6_witness :
    strStartsWith c6Args.mode "cis" = true ∧
    c6Inputs.variantPos = none ∧
    ((runMain c6Args c6Inputs).2 = .error (.assertionError
       "Genotype data without variant positions is only supported for mode trans.") ∧
     Event.loadGenotypes ∈ (runMain c6Args c6Inputs).1 ∧
     ∀ e ∈ (runMain c6Args c6Inputs).1, isMappingEvent e = false) ∧
    (runMain c6TransArgs c6Inputs).2 =
      .ok (.transDone (transFilteredPairs c6TransArgs c6Inputs)) :=
  ⟨by decide, rfl,
   C6_variant_positions_required_for_cis.1 c6Args c6Inputs (by decide) rfl rfl
     rfl rfl rfl rfl rfl (by decide),
   C6_variant_positions_required_for_cis.2 c6TransArgs c6Inputs rfl rfl rfl
     rfl rfl rfl rfl⟩

/-! C2: the trans scan defaults to sparse output at threshold 1e-5. -/

/-- C2: in trans mode, when dense output is not requested and no
p-value threshold is given, the scan runs sparse with threshold 1e-5
and every pair in the output has p-value below 1e-5. -/
theorem C2_sparse_default_threshold (args : Args) (inp : Inputs)
    (hpos : inp.posColumnName = "pos")
    (hcov : args.covariates = false)
    (hpair : args.paired_covariate = false)
    (hint : args.interaction = false)
    (hgrp : args.phenotype_groups = false)
    (hmode : args.mode = "trans")
    (hdense : args.return_dense = false)
    (hthr : args.pval_threshold = none) :
    Event.mapTrans true (some (1/100000)) ∈ (runMain args inp).1 ∧
    ∃ ps, (runMain args inp).2 = .ok (.transDone ps) ∧
      ∀ p ∈ ps, p.pval < 1/100000 := by
  have hres : resolve_pval_threshold args = some (1/100000) := by
    simp [resolve_pval_threshold, hthr, hdense]
  rw [runMain_trans args inp hpos hcov hpair hint hgrp hmode]
  constructor
  · show Event.mapTrans true (some (1/100000)) ∈
      Event.readPhenotypes :: Event.loadGenotypes :: transEvents args inp
    have : Event.mapTrans (!args.return_dense) (resolve_pval_threshold args) =
        Event.mapTrans true (some (1/100000)) := by
      rw [hdense, hres]; rfl
    simp [transEvents, this]
  · refine ⟨transFilteredPairs args inp, rfl, ?_⟩
    intro p hp
    have hscan : p ∈ transScanPairs args inp := by
      unfold transFilteredPairs at hp
      cases hvp : inp.variantPos with
      | none => rw [hvp] at hp; exact hp
      | some vp =>
        rw [hvp] at hp
        exact mem_filter_cis_sub _ _ _ _ _ hp
    have : p ∈ map_trans inp.densePairs true (some (1/100000)) := by
      unfold transScanPairs at hscan
      rw [hdense, hres] at hscan
      exact hscan
    exact mem_map_trans_sparse _ _ _ this

/-- Arguments of the C2 witness run: defaults with mode `trans`
(so `--return_dense` absent and `--pval_threshold` unset). -/
def c2Args : Args := { defaultArgs with mode := "trans" }

/-- C2 witness: in a concrete default trans run, the sparse scan uses
threshold 1e-5 and all output pairs are below it. -/
theorem C2_witness :
    c2Args.return_dense = false ∧ c2Args.pval_threshold = none ∧
    (Event.mapTrans true (some (1/100000)) ∈ (runMain c2Args baseInputs).1 ∧
     ∃ ps, (runMain c2Args baseInputs).2 = .ok (.transDone ps) ∧
       ∀ p ∈ ps, p.pval < 1/100000) :=
  ⟨rfl, rfl,
   C2_sparse_default_threshold c2Args baseInputs rfl rfl rfl rfl rfl rfl rfl rfl⟩

/-! C3: trans cis-exclusion uses a fixed, wider ±5Mb window. -/

/-- C3: in trans mode with variant positions available, the
cis-exclusion filter runs with the literal window 5000000 (whatever
`--window` was set to), which is wider than the default cis window
1000000, and the output retains no pair whose variant is on the
phenotype's chromosome within 5000000 bases of its position. -/
theorem C3_cis_exclusion_window (args : Args) (inp : Inputs)
    (hpos : inp.posColumnName = "pos")
    (hcov : args.covariates = false)
    (hpair : args.paired_covariate = false)
    (hint : args.interaction = false)
    (hgrp : args.phenotype_groups = false)
    (hmode : args.mode = "trans")
    (vp : String → GenoPos) (hvp : inp.variantPos = some vp) :
    Event.filterCis 5000000 ∈ (runMain args inp).1 ∧
    (∀ w, Event.filterCis w ∈ (runMain args inp).1 → w = 5000000) ∧
    defaultArgs.window = 1000000 ∧ (1000000 : ℤ) < 5000000 ∧
    ∃ ps, (runMain args inp).2 = .ok (.transDone ps) ∧
      ∀ p ∈ ps,
        ¬((vp p.variant_id).chrom = (inp.phenotypePos p.phenotype_id).chrom ∧
          |(vp p.variant_id).pos - (inp.phenotypePos p.phenotype_id).pos| ≤ 5000000) := by
  rw [runMain_trans args inp hpos hcov hpair hint hgrp hmode]
  refine ⟨?_, ?_, rfl, by decide, transFilteredPairs args inp, rfl, ?_⟩
  · simp [transEvents, hvp]
  · intro w hw
    by_cases hp : 0 < args.permutations <;>
      simp [transEvents, hvp, hp] at hw <;> exact hw
  · intro p hp
    have : p ∈ filter_cis (transScanPairs args inp) inp.phenotypePos vp 5000000 := by
      unfold transFilteredPairs at hp
      rw [hvp] at hp
      exact hp
    exact mem_filter_cis_not_proximal _ _ _ _ _ this

/-- Arguments of the C3 witness run: mode `trans`, and a `--window`
override of 333 to exhibit that the filter window stays 5000000. -/
def c3Args : Args := { defaultArgs with mode := "trans", window := 333 }

/-- C3 witness: a concrete trans run filters with window 5000000 even
though `--window` is 333, and keeps no cis-proximal pair. -/
theorem C3_witness :
    baseInputs.variantPos = some posFn ∧ c3Args.window = 333 ∧
    (Event.filterCis 5000000 ∈ (runMain c3Args baseInputs).1 ∧
     (∀ w, Event.filterCis w ∈ (runMain c3Args baseInputs).1 → w = 5000000) ∧
     defaultArgs.window = 1000000 ∧ (1000000 : ℤ) < 5000000 ∧
     ∃ ps, (runMain c3Args baseInputs).2 = .ok (.transDone ps) ∧
       ∀ p ∈ ps,
         ¬((posFn p.variant_id).chrom = (baseInputs.phenotypePos p.phenotype_id).chrom ∧
           |(posFn p.variant_id).pos - (baseInputs.phenotypePos p.phenotype_id).pos| ≤ 5000000)) :=
  ⟨rfl, rfl,
   C3_cis_exclusion_window c3Args baseInputs rfl rfl rfl rfl rfl rfl posFn rfl⟩

/-! C8: the trans permutation companion runs iff the count is positive. -/

/-- C8: in trans mode the genome-wide permutation procedure runs if
and only if the requested permutation count is strictly positive, and
when it runs its null is persisted both as a text table and as a
pickle, alongside the pair results. -/
theorem C8_permutations_iff_positive (args : Args) (inp : Inputs)
    (hpos : inp.posColumnName = "pos")
    (hcov : args.covariates = false)
    (hpair : args.paired_covariate = false)
    (hint : args.interaction = false)
    (hgrp : args.phenotype_groups = false)
    (hmode : args.mode = "trans") :
    (0 < args.permutations →
       Event.mapPermutations args.permutations args.seed ∈ (runMain args inp).1 ∧
       Event.writeArtifact (args.out_prefix ++ ".permutations.txt.gz") ∈ (runMain args inp).1 ∧
       Event.writeArtifact (args.out_prefix ++ ".permutations.pickle") ∈ (runMain args inp).1) ∧
    (¬ 0 < args.permutations →
       ∀ n s, Event.mapPermutations n s ∉ (runMain args inp).1) := by
  rw [runMain_trans args inp hpos hcov hpair hint hgrp hmode]
  constructor
  · intro hp
    cases hvp : inp.variantPos with
    | none => refine ⟨?_, ?_, ?_⟩ <;> simp [transEvents, hvp, hp]
    | some vp => refine ⟨?_, ?_, ?_⟩ <;> simp [transEvents, hvp, hp]
  · intro hp n s
    cases hvp : inp.variantPos with
    | none => simp [transEvents, hvp, hp]
    | some vp => simp [transEvents, hvp, hp]

/-- Arguments of the C8 witness run with the default 10000
permutations. -/
def c8Args : Args := { defaultArgs with mode := "trans" }

/-- Arguments of the C8 witness run with `--permutations 0`. -/
def c8ZeroArgs : Args := { defaultArgs with mode := "trans", permutations := 0 }

/-- C8 witness: with 10000 permutations the run permutes and persists
both artifacts; with 0 permutations no permutation event occurs. -/
theorem C8_witness :
    (0 < c8Args.permutations →
       Event.mapPermutations c8Args.permutations c8Args.seed ∈ (runMain c8Args baseInputs).1 ∧
       Event.writeArtifact (c8Args.out_prefix ++ ".permutations.txt.gz") ∈ (runMain c8Args baseInputs).1 ∧
       Event.writeArtifact (c8Args.out_prefix ++ ".permutations.pickle") ∈ (runMain c8Args baseInputs).1) ∧
    (¬ 0 < c8ZeroArgs.permutations →
       ∀ n s, Event.mapPermutations n s ∉ (runMain c8ZeroArgs baseInputs).1) :=
  ⟨(C8_permutations_iff_positive c8Args baseInputs rfl rfl rfl rfl rfl rfl).1,
   (C8_permutations_iff_positive c8ZeroArgs baseInputs rfl rfl rfl rfl rfl rfl).2⟩

/-! C9: without variant positions, the cis-exclusion step is skipped. -/

/-- C9: in trans mode, when the loader returns no variant position
table the cis-exclusion filter never runs and the output is exactly
the (unfiltered) scan result, so cis-proximal pairs remain. -/
theorem C9_filter_skipped_without_positions (args : Args) (inp : Inputs)
    (hpos : inp.posColumnName = "pos")
    (hcov : args.covariates = false)
    (hpair : args.paired_covariate = false)
    (hint : args.interaction = false)
    (hgrp : args.phenotype_groups = false)
    (hmode : args.mode = "trans")
    (hvp : inp.variantPos = none) :
    (∀ w, Event.filterCis w ∉ (runMain args inp).1) ∧
    (runMain args inp).2 = .ok (.transDone
      (map_trans inp.densePairs (!args.return_dense) (resolve_pval_threshold args))) := by
  rw [runMain_trans args inp hpos hcov hpair hint hgrp hmode]
  constructor
  · intro w
    by_cases hp : 0 < args.permutations <;> simp [transEvents, hvp, hp]
  · simp [transFilteredPairs, hvp, transScanPairs]

/-- Arguments of the C9 witness run. -/
def c9Args : Args := { defaultArgs with mode := "trans" }

/-- Inputs of the C9 witness run: no variant position table, and the
dense table's sub-threshold pair sits at the phenotype's own position
(maximally cis-proximal). -/
def c9Inputs : Inputs := { baseInputs with variantPos := none }

/-- C9 witness: the concrete run emits no filter event, returns the
raw sparse scan result, and that result still contains the
cis-proximal pair. -/
theorem C9_witness :
    c9Inputs.variantPos = none ∧
    ((∀ w, Event.filterCis w ∉ (runMain c9Args c9Inputs).1) ∧
     (runMain c9Args c9Inputs).2 = .ok (.transDone
       (map_trans c9Inputs.densePairs (!c9Args.return_dense) (resolve_pval_threshold c9Args)))) ∧
    map_trans c9Inputs.densePairs (!c9Args.return_dense) (resolve_pval_threshold c9Args) =
      [⟨"v1", "p1", 1/200000⟩] ∧
    (posFn "v1").chrom = (c9Inputs.phenotypePos "p1").chrom ∧
    |(posFn "v1").pos - (c9Inputs.phenotypePos "p1").pos| ≤ 5000000 :=
  ⟨rfl,
   C9_filter_skipped_without_positions c9Args c9Inputs rfl rfl rfl rfl rfl rfl rfl,
   by norm_num [map_trans, c9Inputs, c9Args, baseInputs, defaultArgs,
     resolve_pval_threshold, List.filter], rfl, by decide⟩

/-! C7: seed propagation and determinism. -/

/-- C7: the driver passes the user-supplied seed unchanged to the cis
permutation calibrator and to the trans permutation procedure, and a
run is a pure function of the arguments and inputs, so identical seed
and identical inputs reproduce identical traces and results. -/
theorem C7_seed_determinism :
    (∀ (args : Args) (inp : Inputs),
      inp.posColumnName = "pos" →
      args.covariates = false → args.paired_covariate = false →
      args.interaction = false → args.phenotype_groups = false →
      args.mode = "cis" → (∃ vp, inp.variantPos = some vp) →
      Event.mapCis args.seed ∈ (runMain args inp).1) ∧
    (∀ (args : Args) (inp : Inputs),
      inp.posColumnName = "pos" →
      args.covariates = false → args.paired_covariate = false →
      args.interaction = false → args.phenotype_groups = false →
      args.mode = "trans" → 0 < args.permutations →
      Event.mapPermutations args.permutations args.seed ∈ (runMain args inp).1) ∧
    (∀ (a1 a2 : Args) (i1 i2 : Inputs), a1 = a2 → i1 = i2 →
      runMain a1 i1 = runMain a2 i2) := by
  refine ⟨?_, ?_, ?_⟩
  · intro args inp hpos hcov hpair hint hgrp hmode hvp
    obtain ⟨vp, hvp⟩ := hvp
    have hck : checkArgs args inp = none :=
      checkArgs_none_of_mode args inp (by rw [hmode]; decide) hint
    rw [runMain_plain args inp hck hpos hcov hpair hint hgrp,
        loadGenotypesStep_ok_some args inp
          (Or.inr (by rw [hmode]; decide)) vp hvp,
        dispatch_cis args inp hmode]
    simp [seqRun]
  · intro args inp hpos hcov hpair hint hgrp hmode hp
    rw [runMain_trans args inp hpos hcov hpair hint hgrp hmode]
    cases hvp : inp.variantPos with
    | none => simp [transEvents, hvp, hp]
    | some vp => simp [transEvents, hvp, hp]
  · intro a1 a2 i1 i2 ha hi
    rw [ha, hi]

/-- Arguments of the cis half of the C7 witness run, seed 42. -/
def c7CisArgs : Args := { defaultArgs with seed := some 42 }

/-- Arguments of the trans half of the C7 witness run, seed 42. -/
def c7TransArgs : Args := { defaultArgs with mode := "trans", seed := some 42 }

/-- C7 witness: in concrete cis and trans runs the seed 42 reaches the
permutation procedures unchanged, and re-running with equal arguments
and inputs gives the identical result. -/
theorem C7_witness :
    Event.mapCis (some 42) ∈ (runMain c7CisArgs baseInputs).1 ∧
    Event.mapPermutations 10000 (some 42) ∈ (runMain c7TransArgs baseInputs).1 ∧
    runMain c7TransArgs baseInputs = runMain c7TransArgs baseInputs :=
  ⟨C7_seed_determinism.1 c7CisArgs baseInputs rfl rfl rfl rfl rfl rfl ⟨posFn, rfl⟩,
   C7_seed_determinism.2.1 c7TransArgs baseInputs rfl rfl rfl rfl rfl rfl (by decide),
   C7_seed_determinism.2.2 c7TransArgs c7TransArgs baseInputs baseInputs rfl rfl⟩

/-! C10: interaction-term mode restrictions. -/

/-- C10: supplying an interaction term with a mode other than
`cis_nominal` or `trans` raises `ValueError` before any input file is
read (the trace is empty); and in trans mode a multi-column
interaction raises `NotImplementedError` before the scan. -/
theorem C10_interaction_mode_checks :
    (∀ (args : Args) (inp : Inputs),
      args.interaction = true →
      args.mode ≠ "cis_nominal" → args.mode ≠ "trans" →
      (runMain args inp).1 = [] ∧
      ∃ m, (runMain args inp).2 = .error (.valueError m)) ∧
    (∀ (args : Args) (inp : Inputs),
      args.interaction = true → args.mode = "trans" →
      args.invnorm = false →
      inp.posColumnName = "pos" → args.covariates = true →
      inp.phenotypeSamples = inp.covariateSamples →
      args.paired_covariate = false → args.phenotype_groups = false →
      (∀ s ∈ inp.covariateSamples, s ∈ inp.interactionIndex) →
      1 < inp.interactionNcols →
      (runMain args inp).2 = .error (.notImplementedError
        "trans-QTL mapping currently only supports a single interaction.") ∧
      ∀ rs th, Event.mapTrans rs th ∉ (runMain args inp).1) := by
  constructor
  · intro args inp hint h1 h2
    by_cases hc : args.mode = "cis_independent" ∧
        (args.cis_output = false ∨ inp.cisOutputExists = false)
    · have hck : checkArgs args inp =
          some (.valueError "Output from cis mode must be provided.") := by
        simp [checkArgs, hc]
      exact ⟨by simp [runMain, hck],
        "Output from cis mode must be provided.", by simp [runMain, hck]⟩
    · have hck : checkArgs args inp = some (.valueError
          "Interactions are only supported in cis_nominal or trans mode.") := by
        simp [checkArgs, hc, hint, h1, h2]
      exact ⟨by simp [runMain, hck],
        "Interactions are only supported in cis_nominal or trans mode.",
        by simp [runMain, hck]⟩
  · intro args inp hint hmode hinv hpos hcov heq hpair hgrp hsub hn
    have hck := checkArgs_none_of_trans args inp hmode hinv
    have h1 : runMain args inp =
        ([Event.readPhenotypes, Event.readCovariates,
          Event.readInteraction, Event.loadGenotypes],
         .error (.notImplementedError
           "trans-QTL mapping currently only supports a single interaction.")) := by
      rw [runMain_of_checkArgs_none args inp hck,
          phenotypesStep_ok inp hpos,
          covariatesStep_ok args inp hcov heq,
          pairedCovariateStep_off args inp hpair,
          interactionStep_ok args inp hint hcov hsub,
          groupsStep_off args inp hgrp,
          loadGenotypesStep_ok_trans args inp hmode,
          dispatch_trans args inp hmode,
          transBranch_err_multi args inp hint hn]
      rfl
    rw [h1]
    refine ⟨rfl, ?_⟩
    intro rs th h
    simp at h

/-- Arguments of the wrong-mode half of the C10 witness run:
`--interaction` with the default `cis` mode. -/
def c10CisArgs : Args := { defaultArgs with interaction := true }

/-- Arguments of the trans half of the C10 witness run. -/
def c10TransArgs : Args :=
  { defaultArgs with mode := "trans", interaction := true, covariates := true }

/-- Inputs of the trans half of the C10 witness run: a two-column
interaction matrix. -/
def c10Inputs : Inputs := { baseInputs with interactionNcols := 2 }

/-- C10 witness: interaction with mode `cis` dies with an empty trace
and a `ValueError`; a two-column interaction in trans mode dies with
`NotImplementedError` before any scan event. -/
theorem C10_witness :
    ((runMain c10CisArgs baseInputs).1 = [] ∧
     ∃ m, (runMain c10CisArgs baseInputs).2 = .error (.valueError m)) ∧
    ((runMain c10TransArgs c10Inputs).2 = .error (.notImplementedError
       "trans-QTL mapping currently only supports a single interaction.") ∧
     ∀ rs th, Event.mapTrans rs th ∉ (runMain c10TransArgs c10Inputs).1) :=
  ⟨C10_interaction_mode_checks.1 c10CisArgs baseInputs rfl (by decide) (by decide),
   C10_interaction_mode_checks.2 c10TransArgs c10Inputs rfl rfl rfl rfl rfl rfl
     rfl rfl (by decide) (by decide)⟩
